import Mathlib

/-!
Verification development for the spotjott-server backend.

The TypeScript controllers are shallowly embedded as pure Lean functions
over explicit record states that mirror the relevant database tables.
Machine integers are modelled as `Int`/`Nat`; fallible handlers return an
`Except` of the application's typed error hierarchy together with the
resulting store state.  JavaScript-specific behaviour that the handlers
rely on (`parseInt`, falsiness of the empty string, `Math.max` with `NaN`)
is modelled explicitly.
-/

/-- JavaScript `a || d` for an optional string `a`: the empty string is
falsy, so both a missing value and `""` fall back to the default. -/
def jsOr (v : Option String) (d : String) : String :=
  match v with
  | none => d
  | some s => if s == "" then d else s

/-- Character-level trim (both ends, whitespace), the semantics of
JavaScript's `String.prototype.trim`; structurally recursive so that
concrete instances evaluate. -/
def jsTrimChars (cs : List Char) : List Char :=
  ((cs.dropWhile Char.isWhitespace).reverse.dropWhile Char.isWhitespace).reverse

/-- JavaScript `s.trim()`. -/
def jsTrim (s : String) : String :=
  ⟨jsTrimChars s.toList⟩

/-- JavaScript `s.toLowerCase()` (ASCII range, which is all the code
compares). -/
def jsToLower (s : String) : String :=
  ⟨s.toList.map Char.toLower⟩

/-- Split a character list on a separator; `[[]]` for the empty input,
matching JavaScript's `"".split(sep) = [""]`. -/
def splitOnChar (sep : Char) : List Char → List (List Char)
  | [] => [[]]
  | c :: rest =>
    match splitOnChar sep rest, c == sep with
    | r, true => [] :: r
    | [], false => [[c]]
    | h :: t, false => (c :: h) :: t

/-- JavaScript `s.split(sep)` for a one-character separator. -/
def jsSplit (sep : Char) (s : String) : List String :=
  (splitOnChar sep s.toList).map (fun cs => ⟨cs⟩)

/-- Value of a run of leading decimal digits; `none` when there is no digit
(which is JavaScript's `NaN` outcome). -/
def decDigitsValue (cs : List Char) : Option Nat :=
  let ds := cs.takeWhile Char.isDigit
  if ds.isEmpty then none
  else some (ds.foldl (fun a c => a * 10 + (c.toNat - 48)) 0)

/-- Hexadecimal digit value. -/
def hexDigitValue (c : Char) : Nat :=
  if c.isDigit then c.toNat - 48
  else if 'a' ≤ c ∧ c ≤ 'f' then c.toNat - 87
  else c.toNat - 55

/-- Is `c` a hexadecimal digit? -/
def isHexDigit (c : Char) : Bool :=
  c.isDigit || ('a' ≤ c && c ≤ 'f') || ('A' ≤ c && c ≤ 'F')

/-- Value of a run of leading hexadecimal digits, `none` when there is none. -/
def hexDigitsValue (cs : List Char) : Option Nat :=
  let ds := cs.takeWhile isHexDigit
  if ds.isEmpty then none
  else some (ds.foldl (fun a c => a * 16 + hexDigitValue c) 0)

/-- Magnitude part of JavaScript `parseInt` (radix auto-detected from a
`0x`/`0X` prefix, else decimal). -/
def jsParseIntCore (cs : List Char) : Option Nat :=
  match cs with
  | '0' :: 'x' :: rest => hexDigitsValue rest
  | '0' :: 'X' :: rest => hexDigitsValue rest
  | _ => decDigitsValue cs

/-- JavaScript `parseInt(s)`: trim whitespace, optional sign, then the
longest digit prefix; `none` models `NaN`. -/
def jsParseInt (s : String) : Option Int :=
  match jsTrimChars s.toList with
  | '-' :: rest => (jsParseIntCore rest).map (fun n => -(n : Int))
  | '+' :: rest => (jsParseIntCore rest).map (fun n => (n : Int))
  | cs => (jsParseIntCore cs).map (fun n => (n : Int))

/-- JavaScript `Math.max a b` where `b` may be `NaN` (`none`): `NaN`
propagates. -/
def jsMax (a : Int) : Option Int → Option Int
  | none => none
  | some b => some (max a b)

/-- JavaScript `Math.min a b` where `b` may be `NaN` (`none`): `NaN`
propagates. -/
def jsMin (a : Int) : Option Int → Option Int
  | none => none
  | some b => some (min a b)

/-- The typed error hierarchy of `src/utils/errors.ts`, plus `internal`
for a plain `Error` (mapped to HTTP 500 by the boundary handler). -/
inductive AppErr where
  | validation (msg : String)
  | authentication (msg : String)
  | authorization (msg : String)
  | notFound (msg : String)
  | conflict (msg : String)
  | maxTags (msg : String)
  | rateLimit (msg : String)
  | internal (msg : String)
deriving DecidableEq, Repr

/-- HTTP status assigned by each error class's constructor
(`errors.ts`) and surfaced verbatim by `error.middleware.ts`. -/
def AppErr.statusCode : AppErr → Nat
  | .validation _ => 400
  | .authentication _ => 401
  | .authorization _ => 403
  | .notFound _ => 404
  | .conflict _ => 409
  | .maxTags _ => 400
  | .rateLimit _ => 429
  | .internal _ => 500

instance {ε α : Type} [DecidableEq ε] [DecidableEq α] :
    DecidableEq (Except ε α)
  | .ok a, .ok b =>
    match decEq a b with
    | isTrue h => isTrue (h ▸ rfl)
    | isFalse h => isFalse (fun hh => h (Except.ok.inj hh))
  | .ok _, .error _ => isFalse (fun hh => Except.noConfusion hh)
  | .error _, .ok _ => isFalse (fun hh => Except.noConfusion hh)
  | .error e, .error f =>
    match decEq e f with
    | isTrue h => isTrue (h ▸ rfl)
    | isFalse h => isFalse (fun hh => h (Except.error.inj hh))

/-- HTTP status of a handler outcome: successful reads/updates respond
`res.status(200)`, errors carry their class's status. -/
def responseStatus {α : Type} : Except AppErr α → Nat
  | .ok _ => 200
  | .error e => e.statusCode

/-- Is the outcome a success? -/
def isOkResult {α : Type} : Except AppErr α → Bool
  | .ok _ => true
  | .error _ => false

/-- Result of `uploadImage` (`utils/cloudinary.ts`): `{success, url,
publicId}` on success, `{success: false, error?}` on failure. -/
inductive UploadOutcome where
  | success (url publicId : String)
  | failure (err : Option String)
deriving DecidableEq, Repr

/-- JSON-ish values used to model response objects field-by-field, so that
the absence of the `password` key is a statement about data, not types. -/
inductive JVal where
  | str (s : String)
  | num (n : Int)
  | boolean (b : Bool)
  | null
  | arr (l : List String)
deriving DecidableEq, Repr

/-- A `Users` row (timestamps omitted; they are never branched on). -/
structure User where
  id : Nat
  firstName : String
  lastName : String
  email : String
  password : String
  bio : Option String
  userTags : Option (List String)
  profilePicture : Option String
  profilePicturePublicId : Option String
  followersCount : Int
  followingCount : Int
deriving DecidableEq, Repr

/-- The JSON object Prisma returns for a user row, listing every column
the model tracks, including the password hash. -/
def userObject (u : User) : List (String × JVal) :=
  [("id", .num u.id),
   ("firstName", .str u.firstName),
   ("lastName", .str u.lastName),
   ("email", .str u.email),
   ("password", .str u.password),
   ("bio", match u.bio with | some b => .str b | none => .null),
   ("userTags", match u.userTags with | some l => .arr l | none => .null),
   ("profilePicture", match u.profilePicture with | some p => .str p | none => .null),
   ("profilePicturePublicId",
     match u.profilePicturePublicId with | some p => .str p | none => .null),
   ("followersCount", .num u.followersCount),
   ("followingCount", .num u.followingCount)]

/-- `sanitizeUser` (`utils/helpers.ts`): object rest-spread
`const \x7b password, ...sanitized \x7d = user` — every own property except
`password` survives. -/
def sanitizeUser (obj : List (String × JVal)) : List (String × JVal) :=
  obj.filter (fun kv => kv.1 != "password")

/-- `bcrypt.hash(password, 10)`: the external bcrypt dependency is modelled
as an injective tagged encoding; the code only ever stores the hash and
compares via `bcrypt.compare`. -/
def bcryptHash (password : String) : String :=
  String.append "bcrypt$" password

/-- `bcrypt.compare(candidate, storedHash)`. -/
def bcryptCompare (candidate stored : String) : Bool :=
  stored == bcryptHash candidate

/-- No whitespace and no `@`, i.e. the character class of
`EMAIL_REGEX = ^[^\s@]+@[^\s@]+\.[^\s@]+$`. -/
def emailChunkOk (cs : List Char) : Bool :=
  cs.all (fun c => !c.isWhitespace && c != '@')

/-- `isValidEmail` (`utils/helpers.ts`): the regex matches exactly the
strings `local@domain` where both parts are nonempty, free of whitespace
and `@`, and `domain` contains a `.` that is neither its first nor its
last character. -/
def isValidEmail (e : String) : Bool :=
  match jsSplit '@' e with
  | [lo, dom] =>
    lo != "" && emailChunkOk lo.toList && emailChunkOk dom.toList &&
      ((dom.toList.drop 1).dropLast.contains '.')
  | _ => false

/-- `isValidPassword` (`utils/helpers.ts`): length at least 6. -/
def isValidPassword (password : String) : Bool :=
  password.length ≥ 6

/-- `parsePagination` result record; each field is `none` when the
JavaScript computation produced `NaN`. -/
structure Pagination where
  page : Option Int
  limit : Option Int
  offset : Option Int
deriving DecidableEq, Repr

/-- `parsePagination` (`utils/helpers.ts`):
`parseInt(String(page || 1))`, clamped with `Math.max`/`Math.min`, and
`offset = (Math.max(1, parsedPage) - 1) * Math.min(100, Math.max(1,
parsedLimit))`; `NaN` from `parseInt` propagates through the clamps. -/
def parsePagination (page limit : Option String) : Pagination :=
  let parsedPage := jsParseInt (jsOr page "1")
  let parsedLimit := jsParseInt (jsOr limit "20")
  { page := jsMax 1 parsedPage
    limit := jsMin 100 (jsMax 1 parsedLimit)
    offset :=
      match jsMax 1 parsedPage, jsMin 100 (jsMax 1 parsedLimit) with
      | some p, some l => some ((p - 1) * l)
      | _, _ => none }

/-- A free-form tags input, which the HTTP layer may deliver either as a
comma-separated string or as an array of strings. -/
inductive TagsInput where
  | str (s : String)
  | arr (l : List String)
deriving DecidableEq, Repr

/-- State touched by the auth/user profile handlers: the `Users` table and
the autoincrement id counter. -/
structure AuthState where
  users : List User
  nextUserId : Nat
deriving DecidableEq, Repr

/-- `register` (`auth.controller.ts`): required-field check, email format,
password policy, case-insensitive duplicate-email check, optional
profile-picture upload (whose failure aborts before the insert), then the
insert; responds with `sanitizeUser(newUser)`. `tags` is the optional
comma-separated `userTags` input. -/
def register (s : AuthState) (firstName lastName email password : String)
    (bio : Option String) (tags : Option TagsInput) (file : Option UploadOutcome) :
    AuthState × Except AppErr (List (String × JVal)) :=
  if firstName == "" || lastName == "" || email == "" || password == "" then
    (s, .error (.validation
      "Please provide all required fields: firstName, lastName, email, password"))
  else if !isValidEmail email then
    (s, .error (.validation "Invalid email format"))
  else if !isValidPassword password then
    (s, .error (.validation "Password must be at least 6 characters long"))
  else if (s.users.find? (fun u => u.email == jsToLower email)).isSome then
    (s, .error (.conflict "User with this email already exists"))
  else
    let userTags : Option (List String) :=
      match tags with
      | some (.str t) =>
          if t == "" then none else some ((jsSplit ',' t).map jsTrim)
      | some (.arr l) => some l
      | none => none
    match file with
    | some (.failure err) =>
        (s, .error (.validation (jsOr err "Failed to upload profile picture")))
    | _ =>
      let pic : Option String × Option String :=
        match file with
        | some (.success url publicId) => (some url, some publicId)
        | _ => (none, none)
      let newUser : User :=
        { id := s.nextUserId
          firstName := jsTrim firstName
          lastName := jsTrim lastName
          email := jsToLower email
          password := bcryptHash password
          bio := match bio with
                 | some b => if jsTrim b == "" then none else some (jsTrim b)
                 | none => none
          userTags := userTags
          profilePicture := pic.1
          profilePicturePublicId := pic.2
          followersCount := 0
          followingCount := 0 }
      ({ users := s.users ++ [newUser], nextUserId := s.nextUserId + 1 },
       .ok (sanitizeUser (userObject newUser)))

/-- `login` (`auth.controller.ts`): same `ValidationError` for unknown
email and for a failed password comparison; responds with
`sanitizeUser(user)`. -/
def login (s : AuthState) (email password : String) :
    Except AppErr (List (String × JVal)) :=
  if email == "" || password == "" then
    .error (.validation "Please provide email and password")
  else
    match s.users.find? (fun u => u.email == jsToLower email) with
    | none => .error (.validation "Invalid credentials")
    | some user =>
      if bcryptCompare password user.password then
        .ok (sanitizeUser (userObject user))
      else
        .error (.validation "Invalid credentials")

/-- `getCurrentUser` (user controller): look the caller up and respond with
`sanitizeUser(user)`. -/
def getCurrentUser (s : AuthState) (uid : Nat) :
    Except AppErr (List (String × JVal)) :=
  match s.users.find? (fun u => u.id == uid) with
  | none => .error (.notFound "User not found")
  | some user => .ok (sanitizeUser (userObject user))

/-- Apply `updateUser`'s dynamically-built `updateData` to a user row:
each field is patched only when the corresponding input is truthy
(`bio` also accepts clearing, `bio?.trim() || null`). -/
def applyUserUpdate (u : User) (firstName lastName email bio : Option String)
    (userTags : Option TagsInput) : User :=
  let u := match firstName with
           | some f => if f == "" then u else { u with firstName := jsTrim f }
           | none => u
  let u := match lastName with
           | some l => if l == "" then u else { u with lastName := jsTrim l }
           | none => u
  let u := match email with
           | some e => if e == "" then u else { u with email := jsToLower e }
           | none => u
  let u := match bio with
           | some b => { u with bio := if jsTrim b == "" then none else some (jsTrim b) }
           | none => u
  match userTags with
  | some (.str t) =>
      if t == "" then u else { u with userTags := some (jsSplit ',' t) }
  | some (.arr l) => { u with userTags := some l }
  | none => u

/-- `updateUser` (user controller): optional email re-validation and
uniqueness check against other users, then the patch; responds with
`sanitizeUser(updatedUser)`. -/
def updateUser (s : AuthState) (uid : Nat)
    (firstName lastName email bio : Option String)
    (userTags : Option TagsInput) :
    AuthState × Except AppErr (List (String × JVal)) :=
  let emailCheck : Option AppErr :=
    match email with
    | some e =>
      if e == "" then none
      else if !isValidEmail e then some (.validation "Invalid email format")
      else if (s.users.find? (fun u => u.email == jsToLower e && u.id != uid)).isSome then
        some (.validation "Email already exists, use a different email address")
      else none
    | none => none
  match emailCheck with
  | some err => (s, .error err)
  | none =>
    match s.users.find? (fun u => u.id == uid) with
    | none => (s, .error (.internal "Record to update not found"))
    | some u =>
      let u' := applyUserUpdate u firstName lastName email bio userTags
      ({ s with users := s.users.map (fun v => if v.id == uid then u' else v) },
       .ok (sanitizeUser (userObject u')))

/-- `updateProfilePicture` (user controller): upload first, abort on
failure, then patch the picture columns; responds with
`sanitizeUser(updatedUser)`. -/
def updateProfilePicture (s : AuthState) (uid : Nat)
    (file : Option UploadOutcome) :
    AuthState × Except AppErr (List (String × JVal)) :=
  match file with
  | none => (s, .error (.validation "No profile picture provided"))
  | some outcome =>
    match s.users.find? (fun u => u.id == uid) with
    | none => (s, .error (.notFound "User not found"))
    | some u =>
      match outcome with
      | .failure err =>
          (s, .error (.validation (jsOr err "Failed to upload profile picture")))
      | .success url publicId =>
        let u' := { u with profilePicture := some url
                           profilePicturePublicId := some publicId }
        ({ s with users := s.users.map (fun v => if v.id == uid then u' else v) },
         .ok (sanitizeUser (userObject u')))

/-- A `Follows` row: surrogate id plus the (followerId, followingId) pair. -/
structure FollowRow where
  id : Nat
  followerId : Nat
  followingId : Nat
deriving DecidableEq, Repr

/-- A `Notifications` row (only the fields the claims mention). -/
structure NotificationRow where
  userId : Nat
  senderId : Nat
  kind : String
deriving DecidableEq, Repr

/-- State touched by the follow/unfollow handlers. -/
structure FollowState where
  users : List User
  follows : List FollowRow
  notifications : List NotificationRow
  nextFollowId : Nat
deriving DecidableEq, Repr

/-- `prisma.user.update (data: followingCount increment/decrement)`: the
relative counter update the store evaluates on the row with the given id. -/
def bumpFollowing (a : Nat) (d : Int) (u : User) : User :=
  if u.id == a then { u with followingCount := u.followingCount + d } else u

/-- `prisma.user.update (data: followersCount increment/decrement)`. -/
def bumpFollowers (b : Nat) (d : Int) (u : User) : User :=
  if u.id == b then { u with followersCount := u.followersCount + d } else u

/-- `followUser` (user controller): self-follow guard, target existence,
duplicate-follow guard, then one `$transaction` of [create Follow row,
increment follower's `followingCount`, increment followee's
`followersCount`] — the `prisma.user.update` calls require the rows to
exist, else the transaction fails as a whole — followed by a `follow`
notification insert. -/
def followUser (s : FollowState) (currentUserId userIdToFollow : Nat) :
    FollowState × Except AppErr Unit :=
  if currentUserId == userIdToFollow then
    (s, .error (.validation "You cannot follow yourself"))
  else
    match s.users.find? (fun u => u.id == userIdToFollow) with
    | none => (s, .error (.notFound "User not found"))
    | some _ =>
      match s.follows.find? (fun f =>
          f.followerId == currentUserId && f.followingId == userIdToFollow) with
      | some _ => (s, .error (.validation "Already following this user"))
      | none =>
        if (s.users.find? (fun u => u.id == currentUserId)).isSome then
          ({ s with
              follows := s.follows ++
                [{ id := s.nextFollowId
                   followerId := currentUserId
                   followingId := userIdToFollow }]
              users :=
                (s.users.map (bumpFollowing currentUserId 1)).map
                  (bumpFollowers userIdToFollow 1)
              nextFollowId := s.nextFollowId + 1
              notifications := s.notifications ++
                [{ userId := userIdToFollow
                   senderId := currentUserId
                   kind := "follow" }] },
           .ok ())
        else
          (s, .error (.internal "Record to update not found"))

/-- `unfollowUser` (user controller): locate the Follow row for the pair,
reject if absent, then one `$transaction` of [delete that row by id,
decrement follower's `followingCount`, decrement followee's
`followersCount`]; the `prisma.user.update` calls again require both user
rows to exist for the transaction to commit. -/
def unfollowUser (s : FollowState) (currentUserId userIdToUnfollow : Nat) :
    FollowState × Except AppErr Unit :=
  match s.follows.find? (fun f =>
      f.followerId == currentUserId && f.followingId == userIdToUnfollow) with
  | none => (s, .error (.validation "You are not following this user"))
  | some followRecord =>
    if (s.users.find? (fun u => u.id == currentUserId)).isSome &&
       (s.users.find? (fun u => u.id == userIdToUnfollow)).isSome then
      ({ s with
          follows := s.follows.filter (fun f => f.id != followRecord.id)
          users :=
            (s.users.map (bumpFollowing currentUserId (-1))).map
              (bumpFollowers userIdToUnfollow (-1)) },
       .ok ())
    else
      (s, .error (.internal "Record to update not found"))

/-- One request against the follow endpoints. -/
inductive FollowOp where
  | follow (currentUserId targetId : Nat)
  | unfollow (currentUserId targetId : Nat)
deriving DecidableEq, Repr

/-- Execute one follow/unfollow request; a rejected request leaves the
store untouched (every error path of the handlers returns the input
state). -/
def execFollowOp (s : FollowState) (op : FollowOp) : FollowState :=
  match op with
  | .follow a b => (followUser s a b).1
  | .unfollow a b => (unfollowUser s a b).1

/-- Execute a sequence of follow/unfollow requests. -/
def execFollowOps (s : FollowState) (ops : List FollowOp) : FollowState :=
  ops.foldl execFollowOp s

/-- Surrogate-key discipline of the `Follows` table: ids are distinct and
below the autoincrement counter. -/
def followsWF (s : FollowState) : Prop :=
  (s.follows.map FollowRow.id).Nodup ∧ ∀ f ∈ s.follows, f.id < s.nextFollowId

/-- The denormalized-counter invariant: every user row's
`followersCount`/`followingCount` equals the number of Follow rows
pointing at / issued by that user id. -/
def followCountsConsistent (s : FollowState) : Prop :=
  ∀ u ∈ s.users,
    u.followersCount = ((s.follows.filter (fun f => f.followingId == u.id)).length : Int) ∧
    u.followingCount = ((s.follows.filter (fun f => f.followerId == u.id)).length : Int)

/-- A `Jots` row (timestamps omitted). -/
structure Jot where
  id : Nat
  userId : Nat
  content : String
  mediaUrl : Option String
  reactionsCount : Int
  commentsCount : Int
deriving DecidableEq, Repr

/-- A `JotReactions` row. -/
structure JotReaction where
  id : Nat
  jotId : Nat
  userId : Nat
  reactionType : String
deriving DecidableEq, Repr

/-- State touched by the jot/reaction handlers. -/
structure JotState where
  users : List User
  jots : List Jot
  reactions : List JotReaction
  notifications : List NotificationRow
  nextJotId : Nat
  nextReactionId : Nat
deriving DecidableEq, Repr

/-- `createJot` (jot controller): content required, at most 1000
characters, optional media upload whose failure aborts before the insert,
then the insert with zeroed counters. -/
def createJot (s : JotState) (uid : Nat) (content : String)
    (media : Option UploadOutcome) : JotState × Except AppErr Nat :=
  if jsTrim content == "" then
    (s, .error (.validation "Content is required"))
  else if content.length > 1000 then
    (s, .error (.validation "Content must be less than 1000 characters"))
  else
    match media with
    | some (.failure err) =>
        (s, .error (.validation (jsOr err "Failed to upload media")))
    | _ =>
      let mediaUrl : Option String :=
        match media with
        | some (.success url _) => some url
        | _ => none
      ({ s with
          jots := s.jots ++
            [{ id := s.nextJotId
               userId := uid
               content := jsTrim content
               mediaUrl := mediaUrl
               reactionsCount := 0
               commentsCount := 0 }]
          nextJotId := s.nextJotId + 1 },
       .ok s.nextJotId)

/-- The fixed reaction enumeration of `toggleReaction`. -/
def validReactions : List String :=
  ["like", "love", "insightful", "celebrate"]

/-- `prisma.jot.update (data: reactionsCount increment/decrement)`. -/
def bumpReactions (jid : Nat) (d : Int) (j : Jot) : Jot :=
  if j.id == jid then { j with reactionsCount := j.reactionsCount + d } else j

/-- `toggleReaction` (jot controller): validate the reaction kind, load the
jot, then branch on an existing (jotId, userId) reaction.  If present: one
`$transaction` of [delete the reaction by id, decrement `reactionsCount`],
responding `reacted: false`.  If absent: one `$transaction` of [create the
reaction, increment `reactionsCount`], then — when the actor is not the jot
owner — a reactor lookup (a missing row would crash the handler after the
transaction already committed) and a `jot_reaction` notification insert,
responding `reacted: true`. -/
def toggleReaction (s : JotState) (uid jotId : Nat) (reactionType : String) :
    JotState × Except AppErr Bool :=
  if !(validReactions.contains reactionType) then
    (s, .error (.validation "Invalid reaction type"))
  else
    match s.jots.find? (fun j => j.id == jotId) with
    | none => (s, .error (.notFound "Jot not found"))
    | some jot =>
      match s.reactions.find? (fun r => r.jotId == jotId && r.userId == uid) with
      | some existingReaction =>
        ({ s with
            reactions := s.reactions.filter (fun r => r.id != existingReaction.id)
            jots := s.jots.map (bumpReactions jotId (-1)) },
         .ok false)
      | none =>
        let s1 : JotState :=
          { s with
              reactions := s.reactions ++
                [{ id := s.nextReactionId
                   jotId := jotId
                   userId := uid
                   reactionType := reactionType }]
              jots := s.jots.map (bumpReactions jotId 1)
              nextReactionId := s.nextReactionId + 1 }
        if jot.userId == uid then
          (s1, .ok true)
        else
          match s1.users.find? (fun u => u.id == uid) with
          | none => (s1, .error (.internal "reactor lookup failed"))
          | some _ =>
            ({ s1 with
                notifications := s1.notifications ++
                  [{ userId := jot.userId
                     senderId := uid
                     kind := "jot_reaction" }] },
             .ok true)

/-- A `Stories` row (creation timestamp omitted; `expiresAt` is an epoch
instant in milliseconds). -/
structure Story where
  id : Nat
  userId : Nat
  mediaUrl : String
  caption : Option String
  expiresAt : Int
  viewsCount : Int
deriving DecidableEq, Repr

/-- A `StoryViews` row; (storyId, viewerId) is the table's unique key. -/
structure StoryView where
  storyId : Nat
  viewerId : Nat
deriving DecidableEq, Repr

/-- State touched by the story handlers. -/
structure StoryState where
  stories : List Story
  views : List StoryView
  nextStoryId : Nat
deriving DecidableEq, Repr

/-- `calculateStoryExpiration` (`utils/helpers.ts`): now plus 24 hours. -/
def calculateStoryExpiration (now : Int) : Int :=
  now + 24 * 60 * 60 * 1000

/-- `createStory` (story controller): a media file is required; the upload
must succeed and return a URL (a plain `Error`, surfaced as 500,
otherwise); then the insert with `viewsCount: 0` and the computed
`expiresAt`. -/
def createStory (s : StoryState) (uid : Nat) (caption : Option String)
    (file : Option UploadOutcome) (now : Int) : StoryState × Except AppErr Nat :=
  match file with
  | none => (s, .error (.validation "Media file is required for story"))
  | some (.failure _) => (s, .error (.internal "Failed to upload media to Cloudinary"))
  | some (.success url _) =>
    if url == "" then
      (s, .error (.internal "Failed to upload media to Cloudinary"))
    else
      ({ s with
          stories := s.stories ++
            [{ id := s.nextStoryId
               userId := uid
               mediaUrl := url
               caption := match caption with
                          | some c => if jsTrim c == "" then none else some (jsTrim c)
                          | none => none
               expiresAt := calculateStoryExpiration now
               viewsCount := 0 }]
          nextStoryId := s.nextStoryId + 1 },
       .ok s.nextStoryId)

/-- `getActiveStories` (story controller): stories whose owner the caller
follows and whose `expiresAt` is strictly greater than `now` (the
descending `createdAt` ordering is not modelled; only membership is). -/
def getActiveStories (s : StoryState) (follows : List FollowRow) (userId : Nat)
    (now : Int) : List Story :=
  let followingIds :=
    (follows.filter (fun f => f.followerId == userId)).map FollowRow.followingId
  s.stories.filter (fun st => followingIds.contains st.userId && st.expiresAt > now)

/-- `viewStory` (story controller): reject a non-numeric id, a missing
story, and a story with `now > expiresAt`; then, only when no
(storyId, viewerId) view row exists, insert the view row and increment
`viewsCount` (issued as two separate statements in the source — see the
write-group model below); an already-viewed story is a 200 no-op. -/
def viewStory (s : StoryState) (userId : Nat) (storyIdParam : Option Nat)
    (now : Int) : StoryState × Except AppErr Unit :=
  match storyIdParam with
  | none => (s, .error (.validation "Invalid story ID"))
  | some storyId =>
    match s.stories.find? (fun st => st.id == storyId) with
    | none => (s, .error (.notFound "Story not found"))
    | some story =>
      if now > story.expiresAt then
        (s, .error (.validation "This story has expired"))
      else
        match s.views.find? (fun v => v.storyId == storyId && v.viewerId == userId) with
        | some _ => (s, .ok ())
        | none =>
          ({ s with
              views := s.views ++ [{ storyId := storyId, viewerId := userId }]
              stories := s.stories.map (fun st =>
                if st.id == storyId then { st with viewsCount := st.viewsCount + 1 }
                else st) },
           .ok ())

/-- A primitive store statement issued by `viewStory`'s fresh-view path. -/
inductive StoryWrite where
  | createView (storyId viewerId : Nat)
  | incViewsCount (storyId : Nat)
deriving DecidableEq, Repr

/-- Apply one primitive store statement. -/
def applyStoryWrite (s : StoryState) : StoryWrite → StoryState
  | .createView storyId viewerId =>
      { s with views := s.views ++ [{ storyId := storyId, viewerId := viewerId }] }
  | .incViewsCount storyId =>
      { s with stories := s.stories.map (fun st =>
          if st.id == storyId then { st with viewsCount := st.viewsCount + 1 }
          else st) }

/-- The atomic units in which `viewStory`'s fresh-view path hits the store:
`prisma.storyView.create` and `prisma.story.update` are two independent
`await`s, NOT wrapped in a `$transaction` (unlike follow/unfollow,
reaction toggling and comment add/delete, which each issue one
`$transaction`); so each statement is its own unit and execution can stop
between them. -/
def viewStoryFreshPathGroups (storyId viewerId : Nat) : List (List StoryWrite) :=
  [[.createView storyId viewerId], [.incViewsCount storyId]]

/-- Run the first `k` atomic units: the store state that is visible if the
handler fails (or the process dies) after `k` of its statements. -/
def applyGroupPrefix (s : StoryState) (gs : List (List StoryWrite)) (k : Nat) :
    StoryState :=
  (gs.take k).foldl (fun st g => g.foldl applyStoryWrite st) s

/-- The story-side denormalized-counter invariant: every story row's
`viewsCount` equals the number of StoryView rows for it. -/
def storyCountsConsistent (s : StoryState) : Prop :=
  ∀ st ∈ s.stories,
    st.viewsCount = ((s.views.filter (fun v => v.storyId == st.id)).length : Int)

/-- A `Diaries` row. -/
structure Diary where
  id : Nat
  userId : Nat
  name : String
  isPublic : Bool
deriving DecidableEq, Repr

/-- A `DiaryEntries` row. -/
structure DiaryEntry where
  id : Nat
  userId : Nat
  diaryId : Nat
  title : String
  content : String
  coverImage : Option String
deriving DecidableEq, Repr

/-- A `Tags` row, scoped per user by (name, userId). -/
structure TagRow where
  id : Nat
  userId : Nat
  name : String
deriving DecidableEq, Repr

/-- A `DiaryEntryTags` join row. -/
structure DiaryEntryTag where
  diaryEntryId : Nat
  tagId : Nat
deriving DecidableEq, Repr

/-- State touched by the diary and diary-entry handlers. -/
structure DiaryState where
  diaries : List Diary
  entries : List DiaryEntry
  tags : List TagRow
  entryTags : List DiaryEntryTag
  nextEntryId : Nat
  nextTagId : Nat
deriving DecidableEq, Repr

/-- The `MAX_TAGS` constant of `diaryEntry.controller.ts`. -/
def MAX_TAGS : Nat := 5

/-- Tag-name normalization of `createDiaryEntry`/`updateDiaryEntry`: split
a comma-separated string (or take the array), trim, lower-case, drop
empties; an empty string input is falsy so the whole block is skipped. -/
def parseTagNames : Option TagsInput → List String
  | none => []
  | some (.str t) =>
      if t == "" then []
      else ((jsSplit ',' t).map (fun x => jsToLower (jsTrim x))).filter (fun x => x != "")
  | some (.arr l) =>
      (l.map (fun x => jsToLower (jsTrim x))).filter (fun x => x != "")

/-- The find-or-create-then-link body of the tag loop in
`createDiaryEntry`: look up a Tag scoped to (name, userId), create it when
absent, then insert the DiaryEntryTag join row. -/
def linkTag (s : DiaryState) (userId entryId : Nat) (tagName : String) :
    DiaryState :=
  match s.tags.find? (fun t => t.name == tagName && t.userId == userId) with
  | some tag =>
      { s with entryTags := s.entryTags ++ [{ diaryEntryId := entryId, tagId := tag.id }] }
  | none =>
      { s with
          tags := s.tags ++ [{ id := s.nextTagId, userId := userId, name := tagName }]
          nextTagId := s.nextTagId + 1
          entryTags := s.entryTags ++
            [{ diaryEntryId := entryId, tagId := s.nextTagId }] }

/-- `createDiaryEntry` (diaryEntry controller): title/content/diaryId
validation, diary existence and ownership, tag parsing with the `MAX_TAGS`
cap (checked before any write), an optional cover-image upload whose
failure is silently ignored (`coverImageUrl` simply stays `null`), then
the entry insert followed by the tag find-or-create/link loop. -/
def createDiaryEntry (s : DiaryState) (userId : Nat) (title content : String)
    (diaryId : Option Nat) (tags : Option TagsInput)
    (file : Option UploadOutcome) : DiaryState × Except AppErr Nat :=
  if jsTrim title == "" then
    (s, .error (.validation "Entry title is required"))
  else if jsTrim content == "" then
    (s, .error (.validation "Entry content is required"))
  else
    match diaryId with
    | none => (s, .error (.validation "Invalid diary ID"))
    | some parsedDiaryId =>
      match s.diaries.find? (fun d => d.id == parsedDiaryId) with
      | none => (s, .error (.notFound "Diary not found"))
      | some diary =>
        if diary.userId != userId then
          (s, .error (.authorization
            "You don't have permission to add entries to this diary"))
        else
          let tagNames := parseTagNames tags
          if tagNames.length > MAX_TAGS then
            (s, .error (.maxTags "Maximum 5 tags allowed per entry"))
          else
            let coverImageUrl : Option String :=
              match file with
              | some (.success url _) => if url == "" then none else some url
              | _ => none
            let entryId := s.nextEntryId
            let s1 : DiaryState :=
              { s with
                  entries := s.entries ++
                    [{ id := entryId
                       userId := userId
                       diaryId := parsedDiaryId
                       title := jsTrim title
                       content := jsTrim content
                       coverImage := coverImageUrl }]
                  nextEntryId := s.nextEntryId + 1 }
            (tagNames.foldl (fun st tagName => linkTag st userId entryId tagName) s1,
             .ok entryId)

/-- `getDiaryById` (diary controller): existence, then the visibility
gate — a private diary is only served to its owner. -/
def getDiaryById (s : DiaryState) (userId : Nat) (diaryIdParam : Option Nat) :
    Except AppErr Diary :=
  match diaryIdParam with
  | none => .error (.validation "Invalid diary ID")
  | some diaryId =>
    match s.diaries.find? (fun d => d.id == diaryId) with
    | none => .error (.notFound "Diary not found")
    | some diary =>
      if !diary.isPublic && diary.userId != userId then
        .error (.authorization "You don't have permission to view this diary")
      else
        .ok diary

/-- `getDiaryEntries` (diaryEntry controller): existence, the same
visibility gate, then the paginated slice of the diary's entries together
with the exact `hasMore = offset + entries.length < totalCount` flag. -/
def getDiaryEntries (s : DiaryState) (userId : Nat) (diaryIdParam : Option Nat)
    (limit offset : Nat) : Except AppErr (List DiaryEntry × Bool) :=
  match diaryIdParam with
  | none => .error (.validation "Invalid diary ID")
  | some diaryId =>
    match s.diaries.find? (fun d => d.id == diaryId) with
    | none => .error (.notFound "Diary not found")
    | some diary =>
      if !diary.isPublic && diary.userId != userId then
        .error (.authorization "You don't have permission to view these entries")
      else
        let all := s.entries.filter (fun e => e.diaryId == diaryId)
        let entries := (all.drop offset).take limit
        .ok (entries, decide (offset + entries.length < all.length))

/-- `getJotsFeed` (jot controller): the paginated global feed slice
(`take limit skip offset`) and the approximate
`hasMore = jots.length === limit` flag; ordering and the per-jot
`userReaction` join are not branched on and are omitted. -/
def getJotsFeed (allJots : List Jot) (limit offset : Nat) : List Jot × Bool :=
  let jots := (allJots.drop offset).take limit
  (jots, jots.length == limit)

theorem bumpFollowing_id (a : Nat) (d : Int) (u : User) :
    (bumpFollowing a d u).id = u.id := by
  unfold bumpFollowing; split <;> rfl

theorem bumpFollowers_id (b : Nat) (d : Int) (u : User) :
    (bumpFollowers b d u).id = u.id := by
  unfold bumpFollowers; split <;> rfl

theorem bumpFollowing_followersCount (a : Nat) (d : Int) (u : User) :
    (bumpFollowing a d u).followersCount = u.followersCount := by
  unfold bumpFollowing; split <;> rfl

theorem bumpFollowers_followingCount (b : Nat) (d : Int) (u : User) :
    (bumpFollowers b d u).followingCount = u.followingCount := by
  unfold bumpFollowers; split <;> rfl

theorem bumpFollowing_followingCount (a : Nat) (d : Int) (u : User) :
    (bumpFollowing a d u).followingCount =
      u.followingCount + (if u.id = a then d else 0) := by
  unfold bumpFollowing
  by_cases h : u.id = a <;> simp [h]

theorem bumpFollowers_followersCount (b : Nat) (d : Int) (u : User) :
    (bumpFollowers b d u).followersCount =
      u.followersCount + (if u.id = b then d else 0) := by
  unfold bumpFollowers
  by_cases h : u.id = b <;> simp [h]

/-- Deleting a row by its (unique) surrogate id shortens any filtered count
by exactly the deleted row's contribution. -/
theorem length_filter_erase_by_id (l : List FollowRow) (r : FollowRow)
    (P : FollowRow → Bool) (hmem : r ∈ l)
    (hnodup : (l.map FollowRow.id).Nodup) :
    ((l.filter P).length : Int) =
      ((l.filter (fun f => f.id != r.id)).filter P).length +
        (if P r then 1 else 0) := by
  induction l with
  | nil => cases hmem
  | cons a t ih =>
    rw [List.map_cons, List.nodup_cons] at hnodup
    obtain ⟨ha, ht⟩ := hnodup
    rcases List.mem_cons.mp hmem with rfl | hmt
    · have hfil : t.filter (fun f => f.id != r.id) = t := by
        apply List.filter_eq_self.mpr
        intro f hf
        simp only [bne_iff_ne, ne_eq]
        intro hid
        exact ha (hid ▸ List.mem_map_of_mem FollowRow.id hf)
      simp only [List.filter_cons, bne_self_eq_false]
      rw [hfil]
      by_cases hP : P r = true <;> simp [hP]
    · have hne : (a.id != r.id) = true := by
        simp only [bne_iff_ne, ne_eq]
        intro hid
        exact ha (hid ▸ List.mem_map_of_mem FollowRow.id hmt)
      by_cases hP : P a = true
      · simp only [List.filter_cons, hne, if_true, hP, eq_self_iff_true,
          List.length_cons]
        push_cast
        rw [ih hmt ht]
        ring
      · have hPf : P a = false := Bool.eq_false_iff.mpr hP
        simp only [List.filter_cons, hne, if_true, hPf, Bool.false_eq_true,
          if_false]
        exact ih hmt ht

/-- Combined well-formedness plus counter consistency, the invariant
threaded through follow/unfollow sequences. -/
def followStateOK (s : FollowState) : Prop :=
  followsWF s ∧ followCountsConsistent s

theorem followUser_preserves (s : FollowState) (a b : Nat)
    (hok : followStateOK s) : followStateOK (followUser s a b).1 := by
  obtain ⟨hwf, hc⟩ := hok
  unfold followUser
  split
  · exact ⟨hwf, hc⟩
  · split
    · exact ⟨hwf, hc⟩
    · split
      · exact ⟨hwf, hc⟩
      · split
        · dsimp only
          refine ⟨⟨?_, ?_⟩, ?_⟩
          · -- id uniqueness of the extended Follows table
            simp only [List.map_append, List.map_cons, List.map_nil]
            rw [List.nodup_append]
            refine ⟨hwf.1, List.nodup_singleton _, ?_⟩
            intro x hx hx1
            simp only [List.mem_singleton] at hx1
            subst hx1
            obtain ⟨f, hf, hid⟩ := List.mem_map.mp hx
            have := hwf.2 f hf
            omega
          · -- id bound of the extended Follows table
            intro f hf
            rcases List.mem_append.mp hf with hold | hnew
            · exact Nat.lt_succ_of_lt (hwf.2 f hold)
            · simp only [List.mem_singleton] at hnew
              subst hnew
              exact Nat.lt_succ_self _
          · -- counter consistency
            intro u' hu'
            obtain ⟨v, hv, rfl⟩ := List.mem_map.mp hu'
            obtain ⟨u, hu, rfl⟩ := List.mem_map.mp hv
            obtain ⟨hc1, hc2⟩ := hc u hu
            constructor
            · rw [bumpFollowers_followersCount, bumpFollowing_followersCount,
                bumpFollowing_id, bumpFollowers_id, bumpFollowing_id,
                List.filter_append]
              by_cases hub : u.id = b
              · simp only [hub, List.filter_cons, List.filter_nil,
                  beq_self_eq_true, if_true, if_pos trivial]
                simp only [List.length_append, List.length_cons,
                  List.length_nil]
                push_cast
                rw [hc1, hub]
              · have : (b == u.id) = false := by
                  simp only [beq_eq_false_iff_ne, ne_eq]
                  exact fun h => hub h.symm
                simp only [List.filter_cons, List.filter_nil, this,
                  Bool.false_eq_true, if_false, if_neg hub]
                simp only [List.append_nil]
                rw [hc1]
                ring
            · rw [bumpFollowers_followingCount, bumpFollowing_followingCount,
                bumpFollowers_id, bumpFollowing_id,
                List.filter_append]
              by_cases hua : u.id = a
              · simp only [hua, List.filter_cons, List.filter_nil,
                  beq_self_eq_true, if_true, if_pos trivial]
                simp only [List.length_append, List.length_cons,
                  List.length_nil]
                push_cast
                rw [hc2, hua]
              · have : (a == u.id) = false := by
                  simp only [beq_eq_false_iff_ne, ne_eq]
                  exact fun h => hua h.symm
                simp only [List.filter_cons, List.filter_nil, this,
                  Bool.false_eq_true, if_false, if_neg hua]
                simp only [List.append_nil]
                rw [hc2]
                ring
        · exact ⟨hwf, hc⟩

theorem unfollowUser_preserves (s : FollowState) (a b : Nat)
    (hok : followStateOK s) : followStateOK (unfollowUser s a b).1 := by
  obtain ⟨hwf, hc⟩ := hok
  unfold unfollowUser
  split
  · exact ⟨hwf, hc⟩
  · rename_i followRecord hfind
    have hmem : followRecord ∈ s.follows := List.mem_of_find?_eq_some hfind
    have hprop := List.find?_some hfind
    simp only [Bool.and_eq_true, beq_iff_eq] at hprop
    obtain ⟨hra, hrb⟩ := hprop
    split
    · dsimp only
      refine ⟨⟨?_, ?_⟩, ?_⟩
      · have hsub : List.Sublist
            ((s.follows.filter (fun f => f.id != followRecord.id)).map FollowRow.id)
            (s.follows.map FollowRow.id) :=
          List.Sublist.map _ (List.filter_sublist _)
        exact List.Nodup.sublist hsub hwf.1
      · intro f hf
        exact hwf.2 f (List.mem_of_mem_filter hf)
      · intro u' hu'
        obtain ⟨v, hv, rfl⟩ := List.mem_map.mp hu'
        obtain ⟨u, hu, rfl⟩ := List.mem_map.mp hv
        obtain ⟨hc1, hc2⟩ := hc u hu
        dsimp only
        constructor
        · rw [bumpFollowers_followersCount, bumpFollowing_followersCount,
            bumpFollowing_id, bumpFollowers_id, bumpFollowing_id]
          have herase := length_filter_erase_by_id s.follows followRecord
            (fun f => f.followingId == u.id) hmem hwf.1
          by_cases hub : u.id = b
          · have hPr : (followRecord.followingId == u.id) = true := by
              simp [hrb, hub]
            simp only [hPr, if_true] at herase
            rw [hc1, if_pos hub]
            omega
          · have hPr : (followRecord.followingId == u.id) = false := by
              simp only [beq_eq_false_iff_ne, ne_eq, hrb]
              exact fun h => hub h.symm
            simp only [hPr, Bool.false_eq_true, if_false] at herase
            rw [hc1, if_neg hub]
            omega
        · rw [bumpFollowers_followingCount, bumpFollowing_followingCount,
            bumpFollowers_id, bumpFollowing_id]
          have herase := length_filter_erase_by_id s.follows followRecord
            (fun f => f.followerId == u.id) hmem hwf.1
          by_cases hua : u.id = a
          · have hPr : (followRecord.followerId == u.id) = true := by
              simp [hra, hua]
            simp only [hPr, if_true] at herase
            rw [hc2, if_pos hua]
            omega
          · have hPr : (followRecord.followerId == u.id) = false := by
              simp only [beq_eq_false_iff_ne, ne_eq, hra]
              exact fun h => hua h.symm
            simp only [hPr, Bool.false_eq_true, if_false] at herase
            rw [hc2, if_neg hua]
            omega
    · exact ⟨hwf, hc⟩

theorem execFollowOp_preserves (s : FollowState) (op : FollowOp)
    (hok : followStateOK s) : followStateOK (execFollowOp s op) := by
  cases op with
  | follow a b => exact followUser_preserves s a b hok
  | unfollow a b => exact unfollowUser_preserves s a b hok

theorem execFollowOps_preserves (ops : List FollowOp) (s : FollowState)
    (hok : followStateOK s) : followStateOK (execFollowOps s ops) := by
  induction ops generalizing s with
  | nil => exact hok
  | cons op rest ih =>
    unfold execFollowOps
    rw [List.foldl_cons]
    exact ih _ (execFollowOp_preserves s op hok)

/-- C1: starting from a well-formed state whose denormalized
`followersCount`/`followingCount` caches agree with the `Follows` table,
any sequence of follow/unfollow requests (successful ones mutate, rejected
ones leave the store untouched) preserves that agreement: each user's
`followersCount` equals the number of Follow rows with `followingId`
equal to their id, and `followingCount` the number with `followerId`
equal to their id. -/
theorem followUnfollow_counter_invariant (s : FollowState) (ops : List FollowOp)
    (hwf : followsWF s) (hc : followCountsConsistent s) :
    followCountsConsistent (execFollowOps s ops) :=
  (execFollowOps_preserves ops s ⟨hwf, hc⟩).2

/-- A minimal concrete user row for witnesses. -/
def witUser (i : Nat) : User :=
  { id := i
    firstName := "A"
    lastName := "B"
    email := "a@b.c"
    password := "secret1"
    bio := none
    userTags := none
    profilePicture := none
    profilePicturePublicId := none
    followersCount := 0
    followingCount := 0 }

/-- Concrete two-user starting state for the C1 witness. -/
def witFollowState : FollowState :=
  { users := [witUser 1, witUser 2]
    follows := []
    notifications := []
    nextFollowId := 1 }

/-- C1 witness: the invariant theorem applied to a concrete two-user store
and a concrete request sequence. -/
theorem followUnfollow_counter_invariant_witness :
    followCountsConsistent (execFollowOps witFollowState
      [.follow 1 2, .follow 2 1, .unfollow 1 2]) :=
  followUnfollow_counter_invariant witFollowState
    [.follow 1 2, .follow 2 1, .unfollow 1 2]
    (by unfold followsWF; exact ⟨by decide, by decide⟩)
    (by unfold followCountsConsistent; decide)

theorem bumpReactions_id (jid : Nat) (d : Int) (j : Jot) :
    (bumpReactions jid d j).id = j.id := by
  unfold bumpReactions; split <;> rfl

theorem bumpReactions_cancel (l : List Jot) (jid : Nat) :
    (l.map (bumpReactions jid 1)).map (bumpReactions jid (-1)) = l := by
  induction l with
  | nil => rfl
  | cons a t ih =>
    simp only [List.map_cons, ih, List.cons.injEq, and_true]
    unfold bumpReactions
    by_cases h : (a.id == jid) = true
    · simp [h]
    · have hf : (a.id == jid) = false := Bool.eq_false_iff.mpr h
      simp [hf]

theorem find?_map_invariant {α : Type} (l : List α) (f : α → α) (p : α → Bool)
    (h : ∀ x, p (f x) = p x) :
    (l.map f).find? p = (l.find? p).map f := by
  induction l with
  | nil => rfl
  | cons a t ih =>
    simp only [List.map_cons]
    by_cases hpa : p a = true
    · rw [List.find?_cons_of_pos _ (by rw [h a]; exact hpa),
        List.find?_cons_of_pos _ hpa]
      rfl
    · have hf : p a = false := Bool.eq_false_iff.mpr hpa
      rw [List.find?_cons_of_neg _ (by rw [h a]; exact (by simp [hf])),
        List.find?_cons_of_neg _ (by simp [hf]), ih]

theorem find?_append_of_none {α : Type} (l₁ l₂ : List α) (p : α → Bool)
    (h : l₁.find? p = none) : (l₁ ++ l₂).find? p = l₂.find? p := by
  induction l₁ with
  | nil => rfl
  | cons a t ih =>
    rw [List.find?_cons] at h
    cases hpa : p a with
    | true => rw [hpa] at h; cases h
    | false =>
      rw [hpa] at h
      rw [List.cons_append, List.find?_cons_of_neg _ (by simp [hpa]), ih h]

theorem toggleReaction_fresh (s : JotState) (uid jotId : Nat) (ty : String)
    (jot : Jot)
    (hty : validReactions.contains ty = true)
    (hjot : s.jots.find? (fun j => j.id == jotId) = some jot)
    (hnoexist : s.reactions.find?
      (fun r => r.jotId == jotId && r.userId == uid) = none)
    (huser : (s.users.find? (fun u => u.id == uid)).isSome = true) :
    (toggleReaction s uid jotId ty).1.reactions = s.reactions ++
      [{ id := s.nextReactionId, jotId := jotId, userId := uid,
         reactionType := ty }] ∧
    (toggleReaction s uid jotId ty).1.jots = s.jots.map (bumpReactions jotId 1) ∧
    (toggleReaction s uid jotId ty).1.users = s.users ∧
    (toggleReaction s uid jotId ty).2 = .ok true := by
  unfold toggleReaction
  rw [hty]
  simp only [Bool.not_true, Bool.false_eq_true, if_false, hjot, hnoexist]
  by_cases hown : (jot.userId == uid) = true
  · simp [hown]
  · have hf : (jot.userId == uid) = false := Bool.eq_false_iff.mpr hown
    obtain ⟨cu, hcu⟩ := Option.isSome_iff_exists.mp huser
    simp [hf, hcu]

/-- C3: on an existing jot with a valid reaction kind, a caller with no
prior reaction who hits the reaction endpoint twice gets an add then a
remove: the first call succeeds with `reacted: true` and leaves exactly one
(jotId, userId) reaction row, the second succeeds (no error) with
`reacted: false`, and afterwards the reaction table and the jot rows —
`reactionsCount` included — are exactly as before the first call. -/
theorem toggleReaction_double_toggle (s : JotState) (uid jotId : Nat)
    (ty : String) (jot : Jot)
    (hty : validReactions.contains ty = true)
    (hjot : s.jots.find? (fun j => j.id == jotId) = some jot)
    (hnoexist : s.reactions.find?
      (fun r => r.jotId == jotId && r.userId == uid) = none)
    (hwfr : ∀ r ∈ s.reactions, r.id < s.nextReactionId)
    (huser : (s.users.find? (fun u => u.id == uid)).isSome = true) :
    (toggleReaction s uid jotId ty).2 = .ok true ∧
    ((toggleReaction s uid jotId ty).1.reactions.filter
      (fun r => r.jotId == jotId && r.userId == uid)).length = 1 ∧
    (toggleReaction (toggleReaction s uid jotId ty).1 uid jotId ty).2 =
      .ok false ∧
    (toggleReaction (toggleReaction s uid jotId ty).1 uid jotId ty).1.reactions =
      s.reactions ∧
    (toggleReaction (toggleReaction s uid jotId ty).1 uid jotId ty).1.jots =
      s.jots := by
  obtain ⟨hr1, hj1, hu1, hres1⟩ :=
    toggleReaction_fresh s uid jotId ty jot hty hjot hnoexist huser
  have hfilter0 : s.reactions.filter
      (fun r => r.jotId == jotId && r.userId == uid) = [] := by
    rw [List.filter_eq_nil_iff]
    intro r hr
    exact List.find?_eq_none.mp hnoexist r hr
  have hjot2 : (toggleReaction s uid jotId ty).1.jots.find?
      (fun j => j.id == jotId) = some (bumpReactions jotId 1 jot) := by
    rw [hj1, find?_map_invariant _ _ _
      (fun x => by rw [bumpReactions_id]), hjot]
    rfl
  have hex2 : (toggleReaction s uid jotId ty).1.reactions.find?
      (fun r => r.jotId == jotId && r.userId == uid) =
      some { id := s.nextReactionId, jotId := jotId, userId := uid,
             reactionType := ty } := by
    rw [hr1, find?_append_of_none _ _ _ hnoexist]
    simp
  refine ⟨hres1, ?_, ?_, ?_, ?_⟩
  · rw [hr1, List.filter_append, hfilter0]
    simp
  · conv_lhs => rw [toggleReaction]
    rw [hty]
    simp only [Bool.not_true, Bool.false_eq_true, if_false, hjot2, hex2]
  · conv_lhs => rw [toggleReaction]
    rw [hty]
    simp only [Bool.not_true, Bool.false_eq_true, if_false, hjot2, hex2]
    rw [hr1, List.filter_append]
    have hall : s.reactions.filter
        (fun r => r.id != s.nextReactionId) = s.reactions := by
      rw [List.filter_eq_self]
      intro r hr
      simp only [bne_iff_ne, ne_eq]
      exact Nat.ne_of_lt (hwfr r hr)
    simp only [List.filter_cons, List.filter_nil, bne_self_eq_false,
      Bool.false_eq_true, if_false, List.append_nil]
    exact hall
  · conv_lhs => rw [toggleReaction]
    rw [hty]
    simp only [Bool.not_true, Bool.false_eq_true, if_false, hjot2, hex2]
    rw [hj1, bumpReactions_cancel]

/-- A concrete jot row for witnesses. -/
def witJot : Jot :=
  { id := 1
    userId := 1
    content := "hello"
    mediaUrl := none
    reactionsCount := 0
    commentsCount := 0 }

/-- A concrete jot-domain store for the C3 witness: one user owning one
jot with no reactions yet. -/
def witJotState : JotState :=
  { users := [witUser 1]
    jots := [witJot]
    reactions := []
    notifications := []
    nextJotId := 2
    nextReactionId := 1 }

/-- C3 witness: the double-toggle theorem applied to a concrete store. -/
theorem toggleReaction_double_toggle_witness :
    (toggleReaction witJotState 1 1 "like").2 = .ok true ∧
    (toggleReaction (toggleReaction witJotState 1 1 "like").1 1 1 "like").2 =
      .ok false ∧
    (toggleReaction (toggleReaction witJotState 1 1 "like").1 1 1 "like").1.reactions =
      witJotState.reactions ∧
    (toggleReaction (toggleReaction witJotState 1 1 "like").1 1 1 "like").1.jots =
      witJotState.jots := by
  have h := toggleReaction_double_toggle witJotState 1 1 "like" witJot
    (by decide) (by decide) (by decide) (by decide) (by decide)
  exact ⟨h.1, h.2.2.1, h.2.2.2.1, h.2.2.2.2⟩

theorem viewStory_noop_of_viewed (s : StoryState) (uid sid : Nat) (t : Int)
    (hview : (s.views.find?
      (fun v => v.storyId == sid && v.viewerId == uid)).isSome = true) :
    (viewStory s uid (some sid) t).1 = s := by
  obtain ⟨v, hv⟩ := Option.isSome_iff_exists.mp hview
  unfold viewStory
  cases hfind : s.stories.find? (fun st => st.id == sid) with
  | none => simp [hfind]
  | some story =>
    simp only [hfind, hv]
    split <;> rfl

theorem viewStory_fresh (s : StoryState) (uid sid : Nat) (t : Int)
    (story : Story)
    (hfind : s.stories.find? (fun st => st.id == sid) = some story)
    (hactive : ¬ t > story.expiresAt)
    (hnoview : s.views.find?
      (fun v => v.storyId == sid && v.viewerId == uid) = none) :
    (viewStory s uid (some sid) t).1 =
      { s with
          views := s.views ++ [{ storyId := sid, viewerId := uid }]
          stories := s.stories.map (fun st =>
            if st.id == sid then { st with viewsCount := st.viewsCount + 1 }
            else st) } ∧
    (viewStory s uid (some sid) t).2 = .ok () := by
  unfold viewStory
  simp only [hfind, hnoview, if_neg hactive]
  simp

/-- Repeated view requests by the same viewer on the same story, one per
listed instant. -/
def viewTimes (s : StoryState) (uid sid : Nat) (ts : List Int) : StoryState :=
  ts.foldl (fun st t => (viewStory st uid (some sid) t).1) s

theorem viewTimes_noop (uid sid : Nat) (l : List Int) (st : StoryState)
    (h : (st.views.find?
      (fun v => v.storyId == sid && v.viewerId == uid)).isSome = true) :
    viewTimes st uid sid l = st := by
  induction l generalizing st with
  | nil => rfl
  | cons t rest ih =>
    unfold viewTimes
    rw [List.foldl_cons, viewStory_noop_of_viewed st uid sid t h]
    exact ih st h

/-- C4: for a viewer with no existing StoryView row on an active story,
any nonempty sequence of view requests (the first while the story is
unexpired) leaves the same final state as a single view: the
(storyId, viewerId) row exists exactly once, every pair still has at most
one row, and the story's `viewsCount` is exactly one more than before the
first view. -/
theorem viewStory_counts_once (s : StoryState) (uid sid : Nat) (story : Story)
    (t0 : Int) (ts : List Int)
    (hfind : s.stories.find? (fun st => st.id == sid) = some story)
    (hactive : ¬ t0 > story.expiresAt)
    (hnoview : s.views.find?
      (fun v => v.storyId == sid && v.viewerId == uid) = none)
    (hpair : ∀ sid2 uid2 : Nat, (s.views.filter
      (fun v => v.storyId == sid2 && v.viewerId == uid2)).length ≤ 1) :
    viewTimes s uid sid (t0 :: ts) =
      { s with
          views := s.views ++ [{ storyId := sid, viewerId := uid }]
          stories := s.stories.map (fun st =>
            if st.id == sid then { st with viewsCount := st.viewsCount + 1 }
            else st) } ∧
    ((viewTimes s uid sid (t0 :: ts)).views.filter
      (fun v => v.storyId == sid && v.viewerId == uid)).length = 1 ∧
    (∀ sid2 uid2 : Nat, ((viewTimes s uid sid (t0 :: ts)).views.filter
      (fun v => v.storyId == sid2 && v.viewerId == uid2)).length ≤ 1) ∧
    (viewTimes s uid sid (t0 :: ts)).stories.find? (fun st => st.id == sid) =
      some { story with viewsCount := story.viewsCount + 1 } := by
  obtain ⟨h1, _⟩ := viewStory_fresh s uid sid t0 story hfind hactive hnoview
  have hfilter0 : s.views.filter
      (fun v => v.storyId == sid && v.viewerId == uid) = [] := by
    rw [List.filter_eq_nil_iff]
    intro v hv
    exact List.find?_eq_none.mp hnoview v hv
  have hrun : viewTimes s uid sid (t0 :: ts) =
      { s with
          views := s.views ++ [{ storyId := sid, viewerId := uid }]
          stories := s.stories.map (fun st =>
            if st.id == sid then { st with viewsCount := st.viewsCount + 1 }
            else st) } := by
    unfold viewTimes
    rw [List.foldl_cons, h1]
    apply viewTimes_noop
    rw [find?_append_of_none _ _ _ hnoview]
    simp
  refine ⟨hrun, ?_, ?_, ?_⟩
  · rw [hrun]
    simp only [List.filter_append, hfilter0, List.nil_append]
    simp
  · intro sid2 uid2
    rw [hrun]
    simp only [List.filter_append, List.length_append]
    by_cases hmatch : (sid == sid2 && uid == uid2) = true
    · simp only [Bool.and_eq_true, beq_iff_eq] at hmatch
      obtain ⟨h2, h3⟩ := hmatch
      subst h2; subst h3
      rw [hfilter0]
      simp
    · have hf : ((sid : Nat) == sid2 && (uid : Nat) == uid2) = false :=
        Bool.eq_false_iff.mpr hmatch
      simp only [List.filter_cons, List.filter_nil, hf, Bool.false_eq_true,
        if_false, List.length_nil, Nat.add_zero]
      exact hpair sid2 uid2
  · rw [hrun]
    have hstid := List.find?_some hfind
    rw [find?_map_invariant _ _ _
      (fun x => by by_cases hx : (x.id == sid) = true <;> simp [hx]), hfind]
    simp only at hstid
    have hid : story.id = sid := by simpa using hstid
    simp [hid]

/-- A concrete story row for witnesses: expires at instant 1000. -/
def witStory : Story :=
  { id := 1
    userId := 1
    mediaUrl := "url"
    caption := none
    expiresAt := 1000
    viewsCount := 0 }

/-- Concrete story store for witnesses: one story, no views. -/
def witStoryState : StoryState :=
  { stories := [witStory]
    views := []
    nextStoryId := 2 }

/-- C4 witness: viewing three times counts once, applied to a concrete
store. -/
theorem viewStory_counts_once_witness :
    ((viewTimes witStoryState 2 1 [5, 6, 7]).views.filter
      (fun v => v.storyId == 1 && v.viewerId == 2)).length = 1 ∧
    (viewTimes witStoryState 2 1 [5, 6, 7]).stories.find?
      (fun st => st.id == 1) = some { witStory with viewsCount := 1 } := by
  have h := viewStory_counts_once witStoryState 2 1 witStory 5 [6, 7]
    (by decide) (by decide) (by decide) (by intro sid2 uid2; simp [witStoryState])
  exact ⟨h.2.1, h.2.2.2⟩

/-- C7 counterexample: at the instant `now = expiresAt` the story is not
active under the spec's definition (`now < expiresAt` fails), yet a view
request succeeds with 200 instead of failing with ValidationError —
`viewStory` only rejects when `now > expiresAt` (strict). -/
theorem storyExpiration_boundary_cex :
    ¬ ((1000 : Int) < witStory.expiresAt) ∧
    witStory ∉ getActiveStories witStoryState
      [{ id := 0, followerId := 2, followingId := 1 }] 2 1000 ∧
    (viewStory witStoryState 2 (some 1) 1000).2 = .ok () ∧
    (viewStory witStoryState 2 (some 1) 1000).2 ≠
      .error (.validation "This story has expired") := by
  refine ⟨by decide, by decide, by decide, by decide⟩

/-- C7 amended: read-time expiry with an off-by-one boundary. A story
appears in the active listing iff its owner is followed and
`now < expiresAt`; a view request fails with ValidationError (and leaves
the store untouched, the row included) iff `now > expiresAt`; at
`now = expiresAt` exactly, the story is absent from the listing but a view
still succeeds. -/
theorem storyExpiration_readTime (s : StoryState) (follows : List FollowRow)
    (viewer uid sid : Nat) (now : Int) (story : Story)
    (hfind : s.stories.find? (fun st => st.id == sid) = some story) :
    (story ∈ getActiveStories s follows viewer now ↔
      story ∈ s.stories ∧
      ((follows.filter (fun f => f.followerId == viewer)).map
        FollowRow.followingId).contains story.userId = true ∧
      now < story.expiresAt) ∧
    (now > story.expiresAt →
      (viewStory s uid (some sid) now).1 = s ∧
      (viewStory s uid (some sid) now).2 =
        .error (.validation "This story has expired")) := by
  constructor
  · unfold getActiveStories
    rw [List.mem_filter]
    simp [Bool.and_eq_true, decide_eq_true_eq, and_assoc]
  · intro hexp
    unfold viewStory
    simp only [hfind, if_pos hexp]
    refine ⟨?_, ?_⟩ <;> trivial

/-- C7 witness: the amended theorem applied to a concrete expired request
(`now = 1500 > expiresAt = 1000`). -/
theorem storyExpiration_readTime_witness :
    (viewStory witStoryState 2 (some 1) 1500).1 = witStoryState ∧
    (viewStory witStoryState 2 (some 1) 1500).2 =
      .error (.validation "This story has expired") :=
  (storyExpiration_readTime witStoryState [] 2 2 1 1500 witStory
    (by decide)).2 (by decide)

/-- C2 (the code's behaviour at the failing input): on a fresh view,
`viewStory` issues its two store statements as two separate atomic units
(`viewStoryFreshPathGroups`) rather than one `$transaction`; running the
full prefix reproduces `viewStory`'s final state, but the state visible
after only the first unit — exactly what persists if the handler dies
between the two `await`s — has the StoryView row committed while
`viewsCount` is still 0, violating the counter-consistency the claim
requires to be unreachable. -/
theorem viewStory_counter_update_not_atomic :
    (viewStory witStoryState 2 (some 1) 5).1 =
      applyGroupPrefix witStoryState (viewStoryFreshPathGroups 1 2) 2 ∧
    storyCountsConsistent witStoryState ∧
    ¬ storyCountsConsistent
      (applyGroupPrefix witStoryState (viewStoryFreshPathGroups 1 2) 1) ∧
    ((applyGroupPrefix witStoryState (viewStoryFreshPathGroups 1 2) 1).views.filter
      (fun v => v.storyId == 1)).length = 1 ∧
    (applyGroupPrefix witStoryState (viewStoryFreshPathGroups 1 2) 1).stories.find?
      (fun st => st.id == 1) = some witStory := by
  refine ⟨by decide, ?_, ?_, by decide, by decide⟩
  · unfold storyCountsConsistent
    decide
  · unfold storyCountsConsistent
    decide

/-- C5: whenever the normalized tag list exceeds `MAX_TAGS = 5`, the
create-diary-entry operation leaves the store exactly as it was — no
DiaryEntry, Tag or DiaryEntryTag row is created — and, when the earlier
validations pass (nonempty title/content, existing diary owned by the
caller), the reported failure is precisely `MaxTagsError`. -/
theorem createDiaryEntry_maxTags (s : DiaryState) (uid : Nat)
    (title content : String) (did : Option Nat) (tags : Option TagsInput)
    (file : Option UploadOutcome)
    (htags : (parseTagNames tags).length > MAX_TAGS) :
    (createDiaryEntry s uid title content did tags file).1 = s ∧
    (jsTrim title ≠ "" → jsTrim content ≠ "" →
      ∀ d diary, did = some d →
        s.diaries.find? (fun x => x.id == d) = some diary →
        diary.userId = uid →
        (createDiaryEntry s uid title content did tags file).2 =
          .error (.maxTags "Maximum 5 tags allowed per entry")) := by
  constructor
  · unfold createDiaryEntry
    split
    · rfl
    · split
      · rfl
      · split
        · rfl
        · split
          · rfl
          · split
            · rfl
            · simp only [if_pos htags]
  · intro ht hc d diary hdid hfind hown
    subst hdid
    have h1 : (jsTrim title == "") = false := by simp [ht]
    have h2 : (jsTrim content == "") = false := by simp [hc]
    have h3 : (diary.userId != uid) = false := by simp [hown]
    unfold createDiaryEntry
    simp only [h1, h2, h3, Bool.false_eq_true, if_false, hfind,
      if_pos htags]

/-- A concrete private diary owned by user 1. -/
def witDiary : Diary :=
  { id := 1, userId := 1, name := "journal", isPublic := false }

/-- A concrete public diary owned by user 1. -/
def witDiaryPub : Diary :=
  { id := 2, userId := 1, name := "open", isPublic := true }

/-- Concrete diary-domain store for witnesses. -/
def witDiaryState : DiaryState :=
  { diaries := [witDiary, witDiaryPub]
    entries := []
    tags := []
    entryTags := []
    nextEntryId := 1
    nextTagId := 1 }

/-- C5 witness: six tags on an otherwise valid request fail with
MaxTagsError and leave the concrete store unchanged. -/
theorem createDiaryEntry_maxTags_witness :
    (createDiaryEntry witDiaryState 1 "t" "c" (some 1)
      (some (.str "a,b,c,d,e,f")) none).1 = witDiaryState ∧
    (createDiaryEntry witDiaryState 1 "t" "c" (some 1)
      (some (.str "a,b,c,d,e,f")) none).2 =
      .error (.maxTags "Maximum 5 tags allowed per entry") := by
  have h := createDiaryEntry_maxTags witDiaryState 1 "t" "c" (some 1)
    (some (.str "a,b,c,d,e,f")) none (by decide)
  exact ⟨h.1, h.2 (by decide) (by decide) 1 witDiary rfl (by decide) rfl⟩

/-- C6: for a diary that exists, a non-owner's request for the diary (or
its entries) fails with AuthorizationError and HTTP 403 when
`isPublic = false`, and succeeds with HTTP 200 for any authenticated
caller when `isPublic = true`. -/
theorem diary_visibility_gate (s : DiaryState) (uid did : Nat)
    (diary : Diary) (limit offset : Nat)
    (hfind : s.diaries.find? (fun d => d.id == did) = some diary) :
    (diary.isPublic = false → diary.userId ≠ uid →
      getDiaryById s uid (some did) =
        .error (.authorization "You don't have permission to view this diary") ∧
      responseStatus (getDiaryById s uid (some did)) = 403 ∧
      getDiaryEntries s uid (some did) limit offset =
        .error (.authorization
          "You don't have permission to view these entries") ∧
      responseStatus (getDiaryEntries s uid (some did) limit offset) = 403) ∧
    (diary.isPublic = true →
      getDiaryById s uid (some did) = .ok diary ∧
      responseStatus (getDiaryById s uid (some did)) = 200 ∧
      isOkResult (getDiaryEntries s uid (some did) limit offset) = true ∧
      responseStatus (getDiaryEntries s uid (some did) limit offset) = 200) := by
  constructor
  · intro hpriv hne
    have hcond : (!diary.isPublic && diary.userId != uid) = true := by
      simp [hpriv, hne]
    unfold getDiaryById getDiaryEntries
    simp only [hfind, hcond, if_true]
    refine ⟨?_, ?_, ?_, ?_⟩ <;> trivial
  · intro hpub
    have hcond : (!diary.isPublic && diary.userId != uid) = false := by
      simp [hpub]
    unfold getDiaryById getDiaryEntries
    simp only [hfind, hcond, Bool.false_eq_true, if_false]
    refine ⟨?_, ?_, ?_, ?_⟩ <;> trivial

/-- C6 witness: the visibility theorem applied to a concrete store holding
one private and one public diary, with caller 2 who owns neither. -/
theorem diary_visibility_gate_witness :
    responseStatus (getDiaryById witDiaryState 2 (some 1)) = 403 ∧
    getDiaryById witDiaryState 2 (some 2) = .ok witDiaryPub ∧
    responseStatus (getDiaryEntries witDiaryState 2 (some 2) 20 0) = 200 := by
  have h1 := (diary_visibility_gate witDiaryState 2 1 witDiary 20 0
    (by decide)).1 rfl (by decide)
  have h2 := (diary_visibility_gate witDiaryState 2 2 witDiaryPub 20 0
    (by decide)).2 rfl
  exact ⟨h1.2.1, h2.1, h2.2.2.2⟩

/-- C8 counterexample: a non-numeric page string defeats the claimed
bounds — `parseInt("abc")` is `NaN` and `Math.max(1, NaN)` is `NaN`, so
the effective page (and hence the offset) is not an integer at all, let
alone at least 1. -/
theorem parsePagination_nan_cex :
    (parsePagination (some "abc") (some "20")).page = none ∧
    (parsePagination (some "abc") (some "20")).offset = none ∧
    ¬ ∃ p : Int, (parsePagination (some "abc") (some "20")).page = some p ∧
      1 ≤ p := by
  refine ⟨by decide, by decide, ?_⟩
  rintro ⟨p, hp, -⟩
  rw [show (parsePagination (some "abc") (some "20")).page = none by decide]
    at hp
  cases hp

/-- C8 amended: when both effective pagination strings parse to numbers
under JavaScript `parseInt` (after the `input || default` substitution),
the effective page is `max 1 parsed` (so ≥ 1, defaulting to 1), the
effective limit is clamped to [1, 100] (defaulting to 20), and the offset
is exactly `(page - 1) * limit`; the feed endpoints report
`hasMore = (returnedCount == limit)` while the diary-entries endpoint
reports the exact `offset + returned < total` check.  For a non-numeric,
nonempty input string, `parseInt` yields `NaN`, which propagates to the
page/limit/offset instead of being clamped. -/
theorem parsePagination_bounds (page limit : Option String) (p0 l0 : Int)
    (hp : jsParseInt (jsOr page "1") = some p0)
    (hl : jsParseInt (jsOr limit "20") = some l0) :
    (parsePagination page limit).page = some (max 1 p0) ∧
    (parsePagination page limit).limit = some (min 100 (max 1 l0)) ∧
    1 ≤ max 1 p0 ∧
    1 ≤ min 100 (max 1 l0) ∧
    min 100 (max 1 l0) ≤ 100 ∧
    (parsePagination page limit).offset =
      some ((max 1 p0 - 1) * min 100 (max 1 l0)) ∧
    (page = none → max 1 p0 = 1) ∧
    (limit = none → min 100 (max 1 l0) = 20) ∧
    (∀ (allJots : List Jot) (ln off : Nat),
      (getJotsFeed allJots ln off).2 =
        ((getJotsFeed allJots ln off).1.length == ln)) ∧
    (∀ (s : DiaryState) (uid did ln off : Nat) (entries : List DiaryEntry)
        (hm : Bool),
      getDiaryEntries s uid (some did) ln off = .ok (entries, hm) →
      (hm = true ↔ off + entries.length <
        (s.entries.filter (fun e => e.diaryId == did)).length)) := by
  refine ⟨?_, ?_, le_max_left 1 p0, ?_, min_le_left 100 _, ?_, ?_, ?_, ?_, ?_⟩
  · unfold parsePagination
    rw [hp]
    rfl
  · unfold parsePagination
    rw [hl]
    rfl
  · exact le_min (by norm_num) (le_max_left 1 l0)
  · unfold parsePagination
    rw [hp, hl]
    rfl
  · intro hpage
    subst hpage
    have : p0 = 1 := by
      have h1 : jsParseInt (jsOr none "1") = some 1 := by decide
      rw [hp] at h1
      exact Option.some.inj h1
    rw [this]
    simp
  · intro hlimit
    subst hlimit
    have : l0 = 20 := by
      have h1 : jsParseInt (jsOr none "20") = some 20 := by decide
      rw [hl] at h1
      exact Option.some.inj h1
    rw [this]
    norm_num
  · intro allJots ln off
    rfl
  · intro s uid did ln off entries hm hok
    unfold getDiaryEntries at hok
    cases hfind : s.diaries.find? (fun d => d.id == did) with
    | none =>
      simp only [hfind] at hok
      cases hok
    | some diary =>
      simp only [hfind] at hok
      by_cases hviz : (!diary.isPublic && diary.userId != uid) = true
      · rw [if_pos hviz] at hok
        cases hok
      · rw [if_neg (by simp [hviz])] at hok
        have h := Except.ok.inj hok
        have h1 : entries =
            ((s.entries.filter (fun e => e.diaryId == did)).drop off).take ln :=
          (congrArg Prod.fst h).symm
        have h2 : hm = decide (off +
            (((s.entries.filter (fun e => e.diaryId == did)).drop off).take
              ln).length <
            (s.entries.filter (fun e => e.diaryId == did)).length) :=
          (congrArg Prod.snd h).symm
        rw [h2, h1]
        exact decide_eq_true_iff

/-- C8 witness: the amended pagination theorem applied to concrete inputs
page="2", limit="50". -/
theorem parsePagination_bounds_witness :
    (parsePagination (some "2") (some "50")).page = some (max 1 (2 : Int)) ∧
    (parsePagination (some "2") (some "50")).limit =
      some (min 100 (max 1 (50 : Int))) ∧
    (parsePagination (some "2") (some "50")).offset =
      some ((max 1 (2 : Int) - 1) * min 100 (max 1 (50 : Int))) := by
  have h := parsePagination_bounds (some "2") (some "50") 2 50
    (by decide) (by decide)
  exact ⟨h.1, h.2.1, h.2.2.2.2.2.1⟩

/-- C9 counterexample: an otherwise-valid diary-entry creation whose
cover-image upload fails does NOT abort — the entry row is committed
anyway (with a null cover image), so the store is mutated and the
operation reports success. -/
theorem diaryEntry_upload_failure_cex :
    (createDiaryEntry witDiaryState 1 "t" "c" (some 1) none
      (some (.failure none))).1 ≠ witDiaryState ∧
    isOkResult (createDiaryEntry witDiaryState 1 "t" "c" (some 1) none
      (some (.failure none))).2 = true ∧
    (createDiaryEntry witDiaryState 1 "t" "c" (some 1) none
      (some (.failure none))).1.entries =
      [{ id := 1, userId := 1, diaryId := 1, title := "t", content := "c",
         coverImage := none }] := by
  refine ⟨by decide, by decide, by decide⟩

/-- C9 amended: registration, jot creation, story creation and
profile-picture update all abort with an error and no store mutation when
the media upload fails; diary-entry creation instead ignores the failed
upload entirely — it behaves exactly as if no file had been supplied,
committing the entry with a null cover image (so no committed row ever
references a failed-upload URL in any flow). -/
theorem upload_failure_behavior
    (as : AuthState) (firstName lastName email password : String)
    (bio : Option String) (tags : Option TagsInput) (err : Option String)
    (js : JotState) (uid : Nat) (content : String)
    (ss : StoryState) (caption : Option String) (now : Int)
    (ds : DiaryState) (title dcontent : String) (did : Option Nat)
    (dtags : Option TagsInput) :
    (register as firstName lastName email password bio tags
      (some (.failure err))).1 = as ∧
    isOkResult (register as firstName lastName email password bio tags
      (some (.failure err))).2 = false ∧
    (createJot js uid content (some (.failure err))).1 = js ∧
    isOkResult (createJot js uid content (some (.failure err))).2 = false ∧
    (createStory ss uid caption (some (.failure err)) now).1 = ss ∧
    isOkResult (createStory ss uid caption (some (.failure err)) now).2 =
      false ∧
    (updateProfilePicture as uid (some (.failure err))).1 = as ∧
    isOkResult (updateProfilePicture as uid (some (.failure err))).2 =
      false ∧
    createDiaryEntry ds uid title dcontent did dtags (some (.failure err)) =
      createDiaryEntry ds uid title dcontent did dtags none := by
  have hreg : (register as firstName lastName email password bio tags
      (some (.failure err))).1 = as ∧
      isOkResult (register as firstName lastName email password bio tags
        (some (.failure err))).2 = false := by
    unfold register
    repeat' split
    all_goals exact ⟨rfl, rfl⟩
  have hjot : (createJot js uid content (some (.failure err))).1 = js ∧
      isOkResult (createJot js uid content (some (.failure err))).2 =
        false := by
    unfold createJot
    repeat' split
    all_goals exact ⟨rfl, rfl⟩
  have hpic : (updateProfilePicture as uid (some (.failure err))).1 = as ∧
      isOkResult (updateProfilePicture as uid (some (.failure err))).2 =
        false := by
    unfold updateProfilePicture
    repeat' split
    all_goals first
      | exact ⟨rfl, rfl⟩
      | simp_all
  exact ⟨hreg.1, hreg.2, hjot.1, hjot.2, rfl, rfl, hpic.1, hpic.2, rfl⟩

theorem sanitizeUser_no_password (obj : List (String × JVal)) :
    "password" ∉ (sanitizeUser obj).map Prod.fst := by
  unfold sanitizeUser
  intro h
  obtain ⟨kv, hkv, hfst⟩ := List.mem_map.mp h
  have hne := List.of_mem_filter hkv
  rw [hfst] at hne
  simp at hne

/-- C10: every endpoint that returns a user object — register, login,
get-current-user, update-user, update-profile-picture — passes the stored
row through `sanitizeUser`, so for every store and every input the
successful response object never contains the `password` key. -/
theorem user_responses_omit_password :
    (∀ (s : AuthState) (fn ln em pw : String) (bio : Option String)
        (tags : Option TagsInput) (file : Option UploadOutcome)
        (obj : List (String × JVal)),
      (register s fn ln em pw bio tags file).2 = .ok obj →
      "password" ∉ obj.map Prod.fst) ∧
    (∀ (s : AuthState) (em pw : String) (obj : List (String × JVal)),
      login s em pw = .ok obj → "password" ∉ obj.map Prod.fst) ∧
    (∀ (s : AuthState) (uid : Nat) (obj : List (String × JVal)),
      getCurrentUser s uid = .ok obj → "password" ∉ obj.map Prod.fst) ∧
    (∀ (s : AuthState) (uid : Nat) (fn ln em bio : Option String)
        (tags : Option TagsInput) (obj : List (String × JVal)),
      (updateUser s uid fn ln em bio tags).2 = .ok obj →
      "password" ∉ obj.map Prod.fst) ∧
    (∀ (s : AuthState) (uid : Nat) (file : Option UploadOutcome)
        (obj : List (String × JVal)),
      (updateProfilePicture s uid file).2 = .ok obj →
      "password" ∉ obj.map Prod.fst) := by
  refine ⟨?_, ?_, ?_, ?_, ?_⟩
  · intro s fn ln em pw bio tags file obj h
    unfold register at h
    repeat' split at h
    all_goals first
      | (injection h with h2; rw [← h2]; exact sanitizeUser_no_password _)
      | (cases h; try exact sanitizeUser_no_password _)
  · intro s em pw obj h
    unfold login at h
    repeat' split at h
    all_goals first
      | (injection h with h2; rw [← h2]; exact sanitizeUser_no_password _)
      | (cases h; try exact sanitizeUser_no_password _)
  · intro s uid obj h
    unfold getCurrentUser at h
    repeat' split at h
    all_goals first
      | (injection h with h2; rw [← h2]; exact sanitizeUser_no_password _)
      | (cases h; try exact sanitizeUser_no_password _)
  · intro s uid fn ln em bio tags obj h
    unfold updateUser at h
    repeat' split at h
    all_goals first
      | (injection h with h2; rw [← h2]; exact sanitizeUser_no_password _)
      | (cases h; try exact sanitizeUser_no_password _)
  · intro s uid file obj h
    unfold updateProfilePicture at h
    repeat' split at h
    all_goals first
      | (injection h with h2; rw [← h2]; exact sanitizeUser_no_password _)
      | (cases h; try exact sanitizeUser_no_password _)

/-- Concrete auth store for the C10 witness. -/
def witAuthState : AuthState :=
  { users := [witUser 1], nextUserId := 2 }

/-- C10 witness: the get-current-user conjunct applied to a concrete store
whose one user row does carry a stored password hash. -/
theorem user_responses_omit_password_witness :
    "password" ∉ (sanitizeUser (userObject (witUser 1))).map Prod.fst :=
  user_responses_omit_password.2.2.1 witAuthState 1
    (sanitizeUser (userObject (witUser 1))) (by decide)
